import Mathlib

/-!
Shallow embedding of the chat-bot core in `mucbot.py` (class `MUCBot`):
the command dispatcher (`message`), the two command registries, the voting
state machine (`_vote_start`, `_vote_up`, `_vote_down`, `_vote_stat`,
`_vote_end`), the `_help` generator and the pure/IO-boundary handlers.

Modelling conventions:
* Python strings are Lean `String`; the Python string operations used by the
  source (`strip`, `split(' ')`, `startswith`, slicing, `join`) are
  re-implemented structurally over `String.data` so that the kernel can
  evaluate them.
* Python `set` objects (`_votes_up`, `_votes_down`) are `Finset String`.
* Network and file IO (`requests.get`, reading the template files,
  `random.choice`) is an oracle bundled in an `Env` record; everything the
  source computes around those calls is embedded faithfully.
* `os.linesep` is modelled as `"\n"` (POSIX, where the bot runs);
  `requests.codes.ok` is `200`.
* A Python `UnboundLocalError` (reachable in `message` because the
  `msg_type` dispatch has no `else` branch) is an explicit `PyError` value.
-/

namespace Mucbot

/-- Python runtime errors that the embedded code can raise.  The dispatcher
reads the local variable `cmds` without it having been assigned when the
message type is none of the three recognized ones. -/
inductive PyError where
  | unboundLocal (varName : String)
deriving DecidableEq

/-- Characters stripped by Python `str.strip()` (ASCII whitespace). -/
def isSpaceChar (c : Char) : Bool :=
  c = ' ' || c = '\t' || c = '\n' || c = '\r' || c = '\x0b' || c = '\x0c'

/-- Python `str.strip()`. -/
def pyStrip (s : String) : String :=
  ⟨((s.data.dropWhile isSpaceChar).reverse.dropWhile isSpaceChar).reverse⟩

/-- Python `str.split(sep)` for a single-character separator: keeps empty
segments, and the empty string yields `[""]`. -/
def splitOnChar (sep : Char) : List Char → List String
  | [] => [""]
  | c :: rest =>
    if c = sep then
      "" :: splitOnChar sep rest
    else
      match splitOnChar sep rest with
      | [] => [⟨[c]⟩]
      | s :: ss => ⟨c :: s.data⟩ :: ss

/-- Python `body.split(' ')`. -/
def pySplitSpace (s : String) : List String := splitOnChar ' ' s.data

/-- Python `str.startswith(pre)`. -/
def pyStartsWith (s pre : String) : Bool := pre.data.isPrefixOf s.data

/-- Python slicing `s[n:]`. -/
def pyDrop (s : String) (n : Nat) : String := ⟨s.data.drop n⟩

/-- Python truthiness of an `Optional[str]`: `None` and `''` are falsy. -/
def pyTruthy (s : Option String) : Bool :=
  match s with
  | none => false
  | some t => t ≠ ""

/-- Python ascending string comparison (lexicographic on code points). -/
def charListLe : List Char → List Char → Bool
  | [], _ => true
  | _ :: _, [] => false
  | a :: as, b :: bs =>
    if a < b then true
    else if b < a then false
    else charListLe as bs

/-- Boolean `a <= b` on strings, as Python compares them. -/
def pyStrLe (a b : String) : Bool := charListLe a.data b.data

/-- Insertion into an ascending list, used to model Python `sorted`. -/
def insertSorted (x : String) : List String → List String
  | [] => [x]
  | y :: ys => if pyStrLe x y then x :: y :: ys else y :: insertSorted x ys

/-- Python `sorted` on a list of (distinct) strings. -/
def sortStrings (l : List String) : List String := l.foldr insertSorted []

/-- A full protocol address `room@server/resource`; for a group-chat message
the `resource` is the sender's room nickname. -/
structure Jid where
  bare : String
  resource : String
deriving DecidableEq

/-- The full (non-bare) form of the address. -/
def Jid.full (j : Jid) : String := j.bare ++ "/" ++ j.resource

/-- An incoming message stanza as the dispatcher sees it: `msg['from']`,
`msg['type']` and `msg['body']`. -/
structure Msg where
  mfrom : Jid
  mtype : String
  body : String
deriving DecidableEq

/-- One outgoing send (`msg.reply(resp).send()` or `self.send_message`):
recipient address, body (`None` when the handler returned no value) and
message type. -/
structure SendAction where
  mto : String
  mbody : Option String
  mtype : String
deriving DecidableEq

/-- The voting state: `_vote_subject`, `_votes_up`, `_votes_down`. -/
structure VoteState where
  subject : Option String
  votesUp : Finset String
  votesDown : Finset String
deriving DecidableEq

/-- The state at process start: no subject, both voter sets empty. -/
def initialVoteState : VoteState := ⟨none, ∅, ∅⟩

/-- `MUCBot._NO_VOTINGS_MESSAGE`. -/
def NO_VOTINGS_MESSAGE : String := "No votings at the moment"

/-- `MUCBot._CMD_PREFIX`. -/
def CMD_PREFIX : String := "!"

/-- `MUCBot._vote_start` (state transition and reply text). -/
def vote_start (st : VoteState) (args : List String) : VoteState × String :=
  if pyTruthy st.subject then
    (st, "A vote is already running")
  else if args = [] then
    (st, "No subject given. Use vstart <subject>")
  else
    ({ st with subject := some (String.intercalate " " args) }, "Voting started")

/-- `MUCBot._vote_up`; `user` is `msg['from'].resource`. -/
def vote_up (st : VoteState) (user : String) : VoteState × String :=
  if !pyTruthy st.subject then
    (st, NO_VOTINGS_MESSAGE)
  else if user ∈ st.votesUp then
    (st, "You already voted " ++ user)
  else
    let down := if user ∈ st.votesDown then st.votesDown.erase user else st.votesDown
    ({ st with votesUp := insert user st.votesUp, votesDown := down },
      user ++ " voted up")

/-- `MUCBot._vote_down`; `user` is `msg['from'].resource`. -/
def vote_down (st : VoteState) (user : String) : VoteState × String :=
  if !pyTruthy st.subject then
    (st, NO_VOTINGS_MESSAGE)
  else if user ∈ st.votesDown then
    (st, "You already voted down")
  else
    let up := if user ∈ st.votesUp then st.votesUp.erase user else st.votesUp
    ({ st with votesUp := up, votesDown := insert user st.votesDown },
      user ++ " voted down")

/-- `MUCBot._vote_stat`. -/
def vote_stat (st : VoteState) : VoteState × String :=
  match st.subject with
  | some s =>
    if s = "" then (st, NO_VOTINGS_MESSAGE)
    else
      (st, "Subject: \"" ++ s ++ "\". Votes up: " ++ toString st.votesUp.card
        ++ ". Votes down: " ++ toString st.votesDown.card)
  | none => (st, NO_VOTINGS_MESSAGE)

/-- `MUCBot._vote_end`. -/
def vote_end (st : VoteState) : VoteState × String :=
  match st.subject with
  | some s =>
    if s = "" then (st, NO_VOTINGS_MESSAGE)
    else
      (⟨none, ∅, ∅⟩,
        "Voting \"" ++ s ++ "\" ended. " ++ toString st.votesUp.card
          ++ " votes up. " ++ toString st.votesDown.card ++ " votes down")
  | none => (st, NO_VOTINGS_MESSAGE)

/-- The key set of `MUCBot._cmds` (direct-chat registry), in insertion
order. -/
def cmdNames : List String := ["help", "chuck", "surl", "wiki", "taunt"]

/-- The key set of `MUCBot._muc_cmds` (group-chat registry), in insertion
order. -/
def mucCmdNames : List String :=
  ["help", "chuck", "surl", "vstart", "vup", "vdown", "vstat", "vend",
   "slap", "meal", "hug", "kiss", "wiki", "taunt"]

/-- `inspect.getdoc` on the handler bound to a command name: the cleaned
docstring of the corresponding `MUCBot` method (identical in both
registries), `none` for an unregistered name. -/
def getdoc : String → Option String
  | "help" => some "Returns a help string containing all commands"
  | "chuck" => some ("Displays a random Chuck Norris joke from http://icndb.com\n\nYou can optionally change the name of the main character by appending him as arguments: chuck <firstname> <lastname>")
  | "surl" => some ("Shorten a URL with the http://kurzma.ch URL shortener\n\nshorturl http://myurl.com")
  | "wiki" => some ("Displays a random page from the german Wikipedia\n\nYou can display today\x27s featured article: wiki today")
  | "taunt" => some "Taunts the given user"
  | "vstart" => some ("Starts a voting\n\nYou have to provide a subject: vstart <subject>")
  | "vup" => some "Vote up for the current voting"
  | "vdown" => some "Vote down for the current voting"
  | "vstat" => some "Displays statistics for the current voting"
  | "vend" => some "Ends the current voting and shows the result"
  | "slap" => some ("Slaps the given user\n\nSimply type: !slap <nick> an it will slap the person")
  | "meal" => some "Displays a \x27enjoy your meal\x27 message"
  | "hug" => some "Hugs the given user"
  | "kiss" => some ("Kisses the given user\n\nYou can optionally specify the part of the body: kiss <nick> <part of body>")
  | _ => none

/-- `doc.splitlines()[0]`: the short-help line of a docstring. -/
def shortHelp (d : String) : String := ⟨d.data.takeWhile (· ≠ '\n')⟩

/-- The fixed last line appended to every help reply. -/
def srcLine : String := "Source code available at http://kurzma.ch/botsrc"

/-- The first entry of the zero-argument help reply. -/
def helpHeader : String := "Available commands:\n"

/-- The trailing usage hint of the zero-argument help reply. -/
def helpBottom : String :=
  "\nType !help <command name> to get more info about that specific command."

/-- One line of the zero-argument help listing, `none` when the loop body
skips the command (`help` itself, or a handler without a docstring). -/
def helpLine (c : String) : Option String :=
  if c = "help" then none
  else
    match getdoc c with
    | none => none
    | some d => if d = "" then none else some (CMD_PREFIX ++ c ++ ": " ++ shortHelp d)

/-- The body of `MUCBot._help` once the registry has been selected.
`args = []` produces the listing; `args = [c]` produces the long help of a
known command and `none` for an unknown one; more than one argument
produces `none` (the Python method falls off the end, returning `None`). -/
def helpCore (cmds : List String) (args : List String) : Option String :=
  match args with
  | [] =>
    some (String.intercalate "\n"
      ([helpHeader] ++ (sortStrings cmds).filterMap helpLine ++ [helpBottom, srcLine]))
  | [c] =>
    if c ∈ cmds then some (((getdoc c).getD "") ++ "\n" ++ srcLine)
    else none
  | _ => none

/-- `MUCBot._help`: selects the registry from the message type exactly as
the source does; like `message`, it has no fall-through branch, so any
other type would read the unassigned local `cmds`. Every registered
command has a docstring, so the `.getD ""` default inside `helpCore` is
never taken for registered names. -/
def helpExec (msgType : String) (args : List String) : Except PyError (Option String) :=
  if msgType = "normal" ∨ msgType = "chat" then
    .ok (helpCore cmdNames args)
  else if msgType = "groupchat" then
    .ok (helpCore mucCmdNames args)
  else
    .error (.unboundLocal "cmds")

/-- The query parameters `_shorten_url` passes to `requests.get`: note the
`url` entry is the whole argument tuple, not a joined string. -/
structure SurlParams where
  signature : String
  url : List String
  action : String
  format : String
deriving DecidableEq

/-- The response of the shortener API as far as the source reads it:
`status_code` plus the `title` and `shorturl` JSON fields. -/
structure SurlResponse where
  status_code : Nat
  title : String
  shorturl : String

/-- The IO boundary: network responses and the file/random draws the
handlers consume.  Each field stands for one external call the source
makes; everything computed around these calls is embedded. -/
structure Env where
  /-- Shortener API call in `_shorten_url` (`requests.get(self._surl_api, params)`). -/
  surlHttp : SurlParams → SurlResponse
  /-- Joke API call plus JSON extraction and HTML unescaping in `_chuck_norris`;
  the argument is the optional `(firstName, lastName)` pair. -/
  chuckJoke : Option (String × String) → String
  /-- Link of the newest entry of the featured feed read by `_wikipedia`. -/
  featuredLink : String
  /-- `fullurl` of the random page fetched by `_wikipedia`. -/
  randomPageUrl : String
  /-- `random.choice(slaps).format(nick=nick)` in `_slap`: the chosen slap
  template with the nickname substituted. -/
  slapChoice : String → String
  /-- `random.choice(jokes).format(nick=nick)` in `_taunt`. -/
  tauntChoice : String → String

/-- `MUCBot._shorten_url`.  Returns the reply text together with the
request it made (`none` when no HTTP call happens).  `requests.codes.ok`
is 200. -/
def shorten_url (env : Env) (sig : String) (args : List String) :
    String × Option SurlParams :=
  if args = [] then
    ("You must provide a URL to shorten", none)
  else
    let params : SurlParams := ⟨sig, args, "shorturl", "json"⟩
    let r := env.surlHttp params
    if r.status_code = 200 then
      (r.title ++ ": " ++ r.shorturl, some params)
    else
      ("Something went wrong :(", some params)

/-- `MUCBot._chuck_norris` around the joke API call. -/
def chuckExec (env : Env) (args : List String) : String :=
  match args with
  | [] => env.chuckJoke none
  | [a, b] => env.chuckJoke (some (a, b))
  | _ => "You must append a firstname *and* a lastname"

/-- `MUCBot._wikipedia`: picks the featured link if `'today' in args`, else
a random page URL, and pipes it through `_shorten_url` as a single
argument. -/
def wikiExec (env : Env) (sig : String) (args : List String) : String :=
  if "today" ∈ args then
    (shorten_url env sig [env.featuredLink]).1
  else
    (shorten_url env sig [env.randomPageUrl]).1

/-- `MUCBot._slap`. -/
def slapExec (env : Env) (args : List String) : String :=
  let nick := String.intercalate " " args
  if nick = "" then "You have to provide a nick name"
  else "/me " ++ env.slapChoice nick

/-- `MUCBot._taunt`. -/
def tauntExec (env : Env) (args : List String) : String :=
  let nick :=
    if args = [] then "Deine" else String.intercalate " " args ++ "\x27s"
  env.tauntChoice nick

/-- `MUCBot._hug`. -/
def hugExec (args : List String) : String :=
  if args = [] then "Who should I hug?"
  else "/me hugs " ++ String.intercalate " " args

/-- `MUCBot._kiss`. -/
def kissExec (args : List String) : String :=
  match args with
  | [] => "Who should I kiss?"
  | [x] => "/me kisses " ++ x ++ " :-*"
  | [x, y] => "/me kisses " ++ x ++ " on the " ++ y ++ " :-*"
  | _ => "Too many arguments"

/-- The handler call `cmds[cmd](msg, *cmd_args[1:])`: the name-to-method
binding shared by both registries (the dispatcher guards membership in the
active registry before this call, so the final catch-all is unreachable
there). -/
def runHandler (env : Env) (sig : String) (cmd : String) (st : VoteState)
    (msg : Msg) (args : List String) : Except PyError (VoteState × Option String) :=
  match cmd with
  | "help" => (helpExec msg.mtype args).map (fun r => (st, r))
  | "chuck" => .ok (st, some (chuckExec env args))
  | "surl" => .ok (st, some (shorten_url env sig args).1)
  | "wiki" => .ok (st, some (wikiExec env sig args))
  | "taunt" => .ok (st, some (tauntExec env args))
  | "vstart" => .ok ((vote_start st args).1, some (vote_start st args).2)
  | "vup" => .ok ((vote_up st msg.mfrom.resource).1, some (vote_up st msg.mfrom.resource).2)
  | "vdown" => .ok ((vote_down st msg.mfrom.resource).1, some (vote_down st msg.mfrom.resource).2)
  | "vstat" => .ok ((vote_stat st).1, some (vote_stat st).2)
  | "vend" => .ok ((vote_end st).1, some (vote_end st).2)
  | "slap" => .ok (st, some (slapExec env args))
  | "meal" => .ok (st, some "Guten Appetit")
  | "hug" => .ok (st, some (hugExec args))
  | "kiss" => .ok (st, some (kissExec args))
  | _ => .ok (st, none)

/-- `cmd_args = body.strip().split(' ')`. -/
def parseCmdArgs (body : String) : List String := pySplitSpace (pyStrip body)

/-- `cmd = cmd_args[0][len(self._CMD_PREFIX):]`. -/
def parseCmd (body : String) : String :=
  pyDrop ((parseCmdArgs body).headD "") CMD_PREFIX.data.length

/-- `MUCBot.message`, the dispatcher: prefix filter, parse, registry
selection by message type (with no branch for other types, where the later
`cmd not in cmds` raises `UnboundLocalError`), handler call, and reply
routing.  The reply is produced unconditionally once a registered command
ran, with the handler result (possibly `None`) as body: direct chats are
answered to the sender's full address in the same type, group chats to the
room's bare address as `groupchat` — except `help`, answered to the
sender's full address as `chat`. -/
def message (env : Env) (sig : String) (st : VoteState) (msg : Msg) :
    Except PyError (VoteState × List SendAction) :=
  if !pyStartsWith msg.body CMD_PREFIX then
    .ok (st, [])
  else
    let msgType := msg.mtype
    let cmd := parseCmd msg.body
    let args := (parseCmdArgs msg.body).tail
    if msgType = "normal" ∨ msgType = "chat" then
      if cmd ∈ cmdNames then
        match runHandler env sig cmd st msg args with
        | .error e => .error e
        | .ok (st2, resp) => .ok (st2, [⟨msg.mfrom.full, resp, msgType⟩])
      else .ok (st, [])
    else if msgType = "groupchat" then
      if cmd ∈ mucCmdNames then
        match runHandler env sig cmd st msg args with
        | .error e => .error e
        | .ok (st2, resp) =>
          if cmd = "help" then
            .ok (st2, [⟨msg.mfrom.full, resp, "chat"⟩])
          else
            .ok (st2, [⟨msg.mfrom.bare, resp, msgType⟩])
      else .ok (st, [])
    else
      .error (.unboundLocal "cmds")

/-- A concrete environment used for closed evaluations. -/
def env0 : Env where
  surlHttp := fun _ => ⟨200, "title", "http://short"⟩
  chuckJoke := fun _ => "joke"
  featuredLink := "http://feat"
  randomPageUrl := "http://rand"
  slapChoice := fun n => "slaps " ++ n
  tauntChoice := fun n => n ++ " joke"

/-- The command names that the zero-argument Group-registry help reply
lists, in output order; the listing theorem relates this list to
`mucCmdNames` and `getdoc`. -/
def groupHelpListed : List String :=
  ["chuck", "hug", "kiss", "meal", "slap", "surl", "taunt", "vdown",
   "vend", "vstart", "vstat", "vup", "wiki"]

/-! ## Helper lemmas -/

theorem disjoint_insert_erase {u : String} {s t : Finset String}
    (h : Disjoint s t) : Disjoint (insert u s) (t.erase u) := by
  rw [Finset.disjoint_left] at h ⊢
  intro a ha hb
  rcases Finset.mem_insert.mp ha with rfl | ha2
  · exact Finset.not_mem_erase a t hb
  · exact h ha2 (Finset.mem_of_mem_erase hb)

theorem vote_up_disjoint {st : VoteState} {n : String}
    (h : Disjoint st.votesUp st.votesDown) :
    Disjoint (vote_up st n).1.votesUp (vote_up st n).1.votesDown := by
  by_cases h1 : pyTruthy st.subject
  · by_cases h2 : n ∈ st.votesUp
    · simpa [vote_up, h1, h2] using h
    · by_cases h3 : n ∈ st.votesDown
      · simpa [vote_up, h1, h2, h3] using disjoint_insert_erase h
      · have hins : Disjoint (insert n st.votesUp) st.votesDown :=
          Finset.disjoint_insert_left.mpr ⟨h3, h⟩
        simpa [vote_up, h1, h2, h3] using hins
  · simpa [vote_up, h1] using h

theorem vote_down_disjoint {st : VoteState} {n : String}
    (h : Disjoint st.votesUp st.votesDown) :
    Disjoint (vote_down st n).1.votesUp (vote_down st n).1.votesDown := by
  by_cases h1 : pyTruthy st.subject
  · by_cases h2 : n ∈ st.votesDown
    · simpa [vote_down, h1, h2] using h
    · by_cases h3 : n ∈ st.votesUp
      · simpa [vote_down, h1, h2, h3] using (disjoint_insert_erase h.symm).symm
      · have hins : Disjoint st.votesUp (insert n st.votesDown) :=
          Finset.disjoint_insert_right.mpr ⟨h3, h⟩
        simpa [vote_down, h1, h2, h3] using hins
  · simpa [vote_down, h1] using h

theorem vote_up_subject (st : VoteState) (n : String) :
    (vote_up st n).1.subject = st.subject := by
  by_cases h1 : pyTruthy st.subject
  · by_cases h2 : n ∈ st.votesUp
    · simp [vote_up, h1, h2]
    · simp [vote_up, h1, h2]
  · simp [vote_up, h1]

theorem vote_down_subject (st : VoteState) (n : String) :
    (vote_down st n).1.subject = st.subject := by
  by_cases h1 : pyTruthy st.subject
  · by_cases h2 : n ∈ st.votesDown
    · simp [vote_down, h1, h2]
    · simp [vote_down, h1, h2]
  · simp [vote_down, h1]

theorem vote_stat_state (st : VoteState) : (vote_stat st).1 = st := by
  unfold vote_stat
  rcases st with ⟨subj, up, down⟩
  cases subj with
  | none => rfl
  | some s =>
    by_cases h : s = "" <;> simp [h]

theorem up_then_down {st : VoteState} {n : String}
    (h : Disjoint st.votesUp st.votesDown) (ht : pyTruthy st.subject = true) :
    n ∈ (vote_down (vote_up st n).1 n).1.votesDown ∧
    n ∉ (vote_down (vote_up st n).1 n).1.votesUp := by
  by_cases h2 : n ∈ st.votesUp
  · have hnd : n ∉ st.votesDown := Finset.disjoint_left.mp h h2
    simp [vote_up, vote_down, ht, h2, hnd]
  · by_cases h3 : n ∈ st.votesDown
    · simp [vote_up, vote_down, ht, h2, h3, Finset.not_mem_erase]
    · simp [vote_up, vote_down, ht, h2, h3, Finset.not_mem_erase]

theorem runHandler_ok (env : Env) (sig : String) (cmd : String) (st : VoteState)
    (msg : Msg) (args : List String)
    (ht : msg.mtype = "normal" ∨ msg.mtype = "chat" ∨ msg.mtype = "groupchat") :
    ∃ p, runHandler env sig cmd st msg args = .ok p := by
  unfold runHandler
  rcases ht with ht | ht | ht <;>
    split <;> first
      | exact ⟨_, rfl⟩
      | (rw [ht]; exact ⟨_, rfl⟩)

/-! ## Claims -/

/-- C1 (code_bug evidence): for every incoming message whose body starts
with the command prefix but whose type is none of `normal`, `chat`,
`groupchat`, the dispatcher does not terminate silently: it raises
`UnboundLocalError` on the unassigned local `cmds`, because the type
dispatch in `MUCBot.message` has no `else` branch. -/
theorem c1_unknown_type_raises (env : Env) (sig : String) (st : VoteState) (msg : Msg)
    (hb : pyStartsWith msg.body CMD_PREFIX = true)
    (h1 : msg.mtype ≠ "normal") (h2 : msg.mtype ≠ "chat")
    (h3 : msg.mtype ≠ "groupchat") :
    message env sig st msg = .error (.unboundLocal "cmds") := by
  unfold message
  rw [hb]
  simp [h1, h2, h3]

/-- Witness for C1: a `headline`-typed message carrying `!help` makes the
dispatcher raise. -/
theorem c1_unknown_type_raises_witness :
    message env0 "s" initialVoteState ⟨⟨"room@conf", "nick"⟩, "headline", "!help"⟩
      = .error (.unboundLocal "cmds") :=
  c1_unknown_type_raises env0 "s" initialVoteState
    ⟨⟨"room@conf", "nick"⟩, "headline", "!help"⟩
    rfl (by decide) (by decide) (by decide)

/-- C3 counterexample: in the disjoint state with no active vote and empty
voter sets, `vote_up "a"` followed by `vote_down "a"` are both rejected, so
`"a"` does not end up in `votesDown` — the "in particular" part of the
claim fails without an active subject. -/
theorem c3_counterexample :
    Disjoint initialVoteState.votesUp initialVoteState.votesDown ∧
    (vote_down (vote_up initialVoteState "a").1 "a").1 = initialVoteState ∧
    "a" ∉ (vote_down (vote_up initialVoteState "a").1 "a").1.votesDown := by
  refine ⟨by simp [initialVoteState], rfl, ?_⟩
  simp [initialVoteState, vote_up, vote_down, pyTruthy]

/-- C3 (amended): on every state with disjoint voter sets, each of
`vote_start`, `vote_up`, `vote_down`, `vote_stat`, `vote_end` preserves
disjointness (a nickname is in at most one set afterwards); and when a
subject is set, `vote_up n` followed by `vote_down n` leaves `n` in
`votesDown` only. -/
theorem c3_vote_ops_preserve_disjointness (st : VoteState) (n : String)
    (args : List String) (hd : Disjoint st.votesUp st.votesDown) :
    Disjoint (vote_start st args).1.votesUp (vote_start st args).1.votesDown ∧
    Disjoint (vote_up st n).1.votesUp (vote_up st n).1.votesDown ∧
    Disjoint (vote_down st n).1.votesUp (vote_down st n).1.votesDown ∧
    Disjoint (vote_stat st).1.votesUp (vote_stat st).1.votesDown ∧
    Disjoint (vote_end st).1.votesUp (vote_end st).1.votesDown ∧
    (pyTruthy st.subject = true →
      n ∈ (vote_down (vote_up st n).1 n).1.votesDown ∧
      n ∉ (vote_down (vote_up st n).1 n).1.votesUp) := by
  refine ⟨?_, vote_up_disjoint hd, vote_down_disjoint hd, ?_, ?_,
    fun ht => up_then_down hd ht⟩
  · unfold vote_start
    split
    · exact hd
    · split
      · exact hd
      · exact hd
  · rw [vote_stat_state]; exact hd
  · unfold vote_end
    rcases h : st.subject with _ | s
    · exact hd
    · by_cases he : s = "" <;> simp [he, hd]

/-- Witness for C3: the amended statement instantiated at the state with
subject `"X"` and empty voter sets, nickname `"a"`, start argument
`["Y"]`. -/
theorem c3_vote_ops_preserve_disjointness_witness :
    Disjoint (vote_start ⟨some "X", ∅, ∅⟩ ["Y"]).1.votesUp
      (vote_start ⟨some "X", ∅, ∅⟩ ["Y"]).1.votesDown ∧
    Disjoint (vote_up ⟨some "X", ∅, ∅⟩ "a").1.votesUp
      (vote_up ⟨some "X", ∅, ∅⟩ "a").1.votesDown ∧
    Disjoint (vote_down ⟨some "X", ∅, ∅⟩ "a").1.votesUp
      (vote_down ⟨some "X", ∅, ∅⟩ "a").1.votesDown ∧
    Disjoint (vote_stat ⟨some "X", ∅, ∅⟩).1.votesUp
      (vote_stat ⟨some "X", ∅, ∅⟩).1.votesDown ∧
    Disjoint (vote_end ⟨some "X", ∅, ∅⟩).1.votesUp
      (vote_end ⟨some "X", ∅, ∅⟩).1.votesDown ∧
    (pyTruthy (⟨some "X", ∅, ∅⟩ : VoteState).subject = true →
      "a" ∈ (vote_down (vote_up ⟨some "X", ∅, ∅⟩ "a").1 "a").1.votesDown ∧
      "a" ∉ (vote_down (vote_up ⟨some "X", ∅, ∅⟩ "a").1 "a").1.votesUp) :=
  c3_vote_ops_preserve_disjointness ⟨some "X", ∅, ∅⟩ "a" ["Y"] (by simp)

/-- C4 counterexample: with no vote running, `vote_start` on the argument
list `[""]` space-joins to the blank subject `""`, yet the code accepts it
and answers `Voting started` instead of the `EmptySubject` error, because
the source only tests `not args`. -/
theorem c4_counterexample :
    String.intercalate " " [""] = "" ∧
    vote_start initialVoteState [""]
      = ({ initialVoteState with subject := some "" }, "Voting started") ∧
    "Voting started" ≠ "No subject given. Use vstart <subject>" :=
  ⟨rfl, rfl, by decide⟩

/-- C4 (amended): `vote_start` fails with the `AlreadyRunning` reply
whenever the current subject is set and non-empty; it fails with the
`EmptySubject` reply exactly when the argument list is empty; otherwise it
sets the subject to the space-joined arguments (blank if every token is
empty) and returns the confirmation text. -/
theorem c4_vote_start_cases (st : VoteState) (args : List String) :
    (pyTruthy st.subject = true →
      vote_start st args = (st, "A vote is already running")) ∧
    (pyTruthy st.subject = false → args = [] →
      vote_start st args = (st, "No subject given. Use vstart <subject>")) ∧
    (pyTruthy st.subject = false → args ≠ [] →
      vote_start st args =
        ({ st with subject := some (String.intercalate " " args) },
          "Voting started")) := by
  refine ⟨fun h1 => ?_, fun h1 h2 => ?_, fun h1 h2 => ?_⟩
  · simp [vote_start, h1]
  · simp [vote_start, h1, h2]
  · simp [vote_start, h1, h2]

/-- Witness for C4: starting on the fresh state with subject tokens
`["X"]` sets the subject and confirms. -/
theorem c4_vote_start_cases_witness :
    vote_start initialVoteState ["X"]
      = ({ initialVoteState with subject := some (String.intercalate " " ["X"]) },
          "Voting started") :=
  (c4_vote_start_cases initialVoteState ["X"]).2.2 rfl (by decide)

/-- C5: after `vstart X`, `vup` by `"a"` and `vdown` by `"b"`, ending the
vote reports subject `X` with one vote up and one vote down and clears the
whole state, so a following `vstat` (and a `vend` on the cleared state)
answers the no-votings message. -/
theorem c5_end_scenario :
    (vote_end (vote_down (vote_up (vote_start initialVoteState ["X"]).1 "a").1 "b").1)
      = (initialVoteState, "Voting \"X\" ended. 1 votes up. 1 votes down") ∧
    vote_stat (vote_end (vote_down (vote_up (vote_start initialVoteState ["X"]).1 "a").1 "b").1).1
      = (initialVoteState, NO_VOTINGS_MESSAGE) ∧
    vote_end initialVoteState = (initialVoteState, NO_VOTINGS_MESSAGE) := by
  decide

/-- C10: `vote_stat` is read-only (it returns the state unchanged), and
`vote_up`/`vote_down` never change the subject — among the vote
operations only `vote_start` and `vote_end` modify it. -/
theorem c10_vote_frame (st : VoteState) (n : String) :
    (vote_stat st).1 = st ∧
    (vote_up st n).1.subject = st.subject ∧
    (vote_down st n).1.subject = st.subject :=
  ⟨vote_stat_state st, vote_up_subject st n, vote_down_subject st n⟩

/-- C2 counterexample: on the direct-chat message `!help a b` the handler
returns no value, yet the dispatcher still executes
`msg.reply(resp).send()`, emitting one (body-less) send — the send list is
not empty, so "sends no reply" fails as stated. -/
theorem c2_counterexample :
    runHandler env0 "s" "help" initialVoteState
        ⟨⟨"u@s", "r"⟩, "chat", "!help a b"⟩ ["a", "b"]
      = .ok (initialVoteState, none) ∧
    message env0 "s" initialVoteState ⟨⟨"u@s", "r"⟩, "chat", "!help a b"⟩
      = .ok (initialVoteState, [⟨"u@s/r", none, "chat"⟩]) ∧
    ([(⟨"u@s/r", none, "chat"⟩ : SendAction)] : List SendAction) ≠ [] :=
  ⟨rfl, rfl, by decide⟩

/-- C2 (amended): when a dispatched command's handler returns no value, the
dispatcher still performs exactly one send on the channel-appropriate
route, but with an empty (`None`) body — no reply text is delivered on any
channel type. -/
theorem c2_none_reply_sends_empty_body (env : Env) (sig : String)
    (st st2 : VoteState) (msg : Msg)
    (hb : pyStartsWith msg.body CMD_PREFIX = true)
    (ht : msg.mtype = "normal" ∨ msg.mtype = "chat" ∨ msg.mtype = "groupchat")
    (hcDirect : msg.mtype = "normal" ∨ msg.mtype = "chat" →
      parseCmd msg.body ∈ cmdNames)
    (hcGroup : msg.mtype = "groupchat" → parseCmd msg.body ∈ mucCmdNames)
    (hrun : runHandler env sig (parseCmd msg.body) st msg
      (parseCmdArgs msg.body).tail = .ok (st2, none)) :
    ∃ a : SendAction, message env sig st msg = .ok (st2, [a]) ∧ a.mbody = none := by
  rcases ht with ht | ht | ht
  · refine ⟨⟨msg.mfrom.full, none, "normal"⟩, ?_, rfl⟩
    unfold message
    rw [hb, ht]
    simp [hcDirect (Or.inl ht), hrun]
  · refine ⟨⟨msg.mfrom.full, none, "chat"⟩, ?_, rfl⟩
    unfold message
    rw [hb, ht]
    simp [hcDirect (Or.inr ht), hrun]
  · by_cases hh : parseCmd msg.body = "help"
    · refine ⟨⟨msg.mfrom.full, none, "chat"⟩, ?_, rfl⟩
      unfold message
      rw [hb, ht]
      rw [hh] at hrun
      simp [hcGroup ht, hrun, hh]
      decide
    · refine ⟨⟨msg.mfrom.bare, none, "groupchat"⟩, ?_, rfl⟩
      unfold message
      rw [hb, ht]
      simp [hcGroup ht, hrun, hh]

/-- Witness for C2: the amended statement at the direct-chat message
`!help a b`, whose handler returns no value. -/
theorem c2_none_reply_sends_empty_body_witness :
    ∃ a : SendAction,
      message env0 "s" initialVoteState ⟨⟨"u@s", "r"⟩, "chat", "!help a b"⟩
        = .ok (initialVoteState, [a]) ∧ a.mbody = none :=
  c2_none_reply_sends_empty_body env0 "s" initialVoteState initialVoteState
    ⟨⟨"u@s", "r"⟩, "chat", "!help a b"⟩ rfl (Or.inr (Or.inl rfl))
    (fun _ => by decide) (fun h => absurd h (by decide)) rfl

/-- C6: the zero-argument help reply built from the Group registry is the
header, then one line per listed command pairing the name with its short
help, then the usage hint and the source line; the listed names are
strictly ascending (hence each appears exactly once), and a registered
name is listed exactly when it is not `help` and its handler has a
non-empty docstring. -/
theorem c6_help_group_listing :
    helpExec "groupchat" [] =
      .ok (some (String.intercalate "\n"
        ([helpHeader] ++
          groupHelpListed.map
            (fun c => CMD_PREFIX ++ c ++ ": " ++ shortHelp ((getdoc c).getD "")) ++
          [helpBottom, srcLine]))) ∧
    List.Pairwise (fun a b => pyStrLe a b = true ∧ a ≠ b) groupHelpListed ∧
    groupHelpListed.Nodup ∧
    (∀ c ∈ mucCmdNames, (c ∈ groupHelpListed ↔ (c ≠ "help" ∧ (getdoc c).getD "" ≠ ""))) ∧
    (∀ c ∈ groupHelpListed, c ∈ mucCmdNames) :=
  ⟨rfl, by decide, by decide, by decide, by decide⟩

/-- C7: every command dispatched from a group-chat message is answered to
the room's bare address with type `groupchat`, except `help`, which is
answered to the requester's full address with type `chat`, even though the
Group registry resolved it. -/
theorem c7_group_routing (env : Env) (sig : String) (st : VoteState) (msg : Msg)
    (ht : msg.mtype = "groupchat")
    (hb : pyStartsWith msg.body CMD_PREFIX = true)
    (hc : parseCmd msg.body ∈ mucCmdNames) :
    ∃ st2 resp,
      runHandler env sig (parseCmd msg.body) st msg (parseCmdArgs msg.body).tail
        = .ok (st2, resp) ∧
      message env sig st msg =
        .ok (st2,
          [if parseCmd msg.body = "help" then
            (⟨msg.mfrom.full, resp, "chat"⟩ : SendAction)
           else
            ⟨msg.mfrom.bare, resp, "groupchat"⟩]) := by
  obtain ⟨⟨st2, resp⟩, hrun⟩ :=
    runHandler_ok env sig (parseCmd msg.body) st msg (parseCmdArgs msg.body).tail
      (Or.inr (Or.inr ht))
  refine ⟨st2, resp, hrun, ?_⟩
  unfold message
  rw [hb, ht]
  by_cases hh : parseCmd msg.body = "help"
  · rw [hh] at hrun
    simp [hc, hrun, hh]
    decide
  · simp [hc, hrun, hh]

/-- Witness for C7: the group-chat message `!meal` is answered to the room
bare address as `groupchat`. -/
theorem c7_group_routing_witness :
    ∃ st2 resp,
      runHandler env0 "s" (parseCmd "!meal") initialVoteState
          ⟨⟨"room@conf", "alice"⟩, "groupchat", "!meal"⟩ (parseCmdArgs "!meal").tail
        = .ok (st2, resp) ∧
      message env0 "s" initialVoteState ⟨⟨"room@conf", "alice"⟩, "groupchat", "!meal"⟩ =
        .ok (st2,
          [if parseCmd "!meal" = "help" then
            (⟨(Jid.mk "room@conf" "alice").full, resp, "chat"⟩ : SendAction)
           else
            ⟨(Jid.mk "room@conf" "alice").bare, resp, "groupchat"⟩]) :=
  c7_group_routing env0 "s" initialVoteState
    ⟨⟨"room@conf", "alice"⟩, "groupchat", "!meal"⟩ rfl rfl (by decide)

/-- C8: `kiss` with no arguments prompts, with one argument `x` answers
`/me kisses x :-*`, with two arguments `x y` answers
`/me kisses x on the y :-*`, and with three or more arguments answers the
error text; being a total function, it never raises. -/
theorem c8_kiss_formats (x y z : String) (rest : List String) :
    kissExec [] = "Who should I kiss?" ∧
    kissExec [x] = "/me kisses " ++ x ++ " :-*" ∧
    kissExec [x, y] = "/me kisses " ++ x ++ " on the " ++ y ++ " :-*" ∧
    kissExec (x :: y :: z :: rest) = "Too many arguments" :=
  ⟨rfl, rfl, rfl, rfl⟩

/-- C9 counterexample: with the two tokens `a b`, the request made to the
shortener carries the raw token sequence as its `url` parameter, which is
not the single space-joined URL the claim describes. -/
theorem c9_counterexample :
    (shorten_url env0 "s" ["a", "b"]).2
      = some ⟨"s", ["a", "b"], "shorturl", "json"⟩ ∧
    (["a", "b"] : List String) ≠ [String.intercalate " " ["a", "b"]] :=
  ⟨rfl, by decide⟩

/-- C9 (amended): `surl` with no arguments returns the prompt error and
makes no HTTP call; with one or more tokens it passes the token sequence
itself (not space-joined) as the `url` parameter, returns the fixed
failure string on a non-success status, and `"<title>: <short-url>"` on
success. -/
theorem c9_shorten_url_cases (env : Env) (sig : String) (args : List String) :
    (args = [] →
      shorten_url env sig args = ("You must provide a URL to shorten", none)) ∧
    (args ≠ [] →
      (shorten_url env sig args).2 = some ⟨sig, args, "shorturl", "json"⟩ ∧
      (shorten_url env sig args).1 =
        (if (env.surlHttp ⟨sig, args, "shorturl", "json"⟩).status_code = 200 then
          (env.surlHttp ⟨sig, args, "shorturl", "json"⟩).title ++ ": "
            ++ (env.surlHttp ⟨sig, args, "shorturl", "json"⟩).shorturl
         else "Something went wrong :(")) := by
  refine ⟨fun h => by simp [shorten_url, h], fun h => ?_⟩
  by_cases hs : (env.surlHttp ⟨sig, args, "shorturl", "json"⟩).status_code = 200 <;>
    simp [shorten_url, h, hs]

/-- Witness for C9: the amended statement at the single token `u`. -/
theorem c9_shorten_url_cases_witness :
    (shorten_url env0 "key" ["u"]).2 = some ⟨"key", ["u"], "shorturl", "json"⟩ ∧
    (shorten_url env0 "key" ["u"]).1 =
      (if (env0.surlHttp ⟨"key", ["u"], "shorturl", "json"⟩).status_code = 200 then
        (env0.surlHttp ⟨"key", ["u"], "shorturl", "json"⟩).title ++ ": "
          ++ (env0.surlHttp ⟨"key", ["u"], "shorturl", "json"⟩).shorturl
       else "Something went wrong :(") :=
  (c9_shorten_url_cases env0 "key" ["u"]).2 (by decide)

end Mucbot
